import Mathlib

/-
Verification of the Cloudflare dynamic-DNS updater (src/ddns_updater.py).

The script has two functions:

  get_public_ip(raise_for_status=True)
    performs one HTTPS GET against the ifconfig.co lookup service, optionally
    calls response.raise_for_status() (which raises requests.HTTPError exactly
    for status codes in [400, 600)), and returns the decoded JSON body.

  update_dns_ip(raise_for_status=True, **secrets)
    builds a Cloudflare client from the secrets mapping, fetches the DNS
    record addressed by ZONE_ID and RECORD_ID, resolves the public IP via
    get_public_ip, compares record.content with the "ip" field of the lookup
    body, and issues a single update call when they differ.

The embedding below is a faithful translation of that control flow.  External
effects are made explicit: a World value carries the responses the two remote
services would produce, and each run returns both its outcome (an Except of
the exceptions the Python code can raise) and the ordered list of network
calls it issued.  Python dictionaries (the secrets kwargs and the decoded
JSON bodies) are modelled as association lists with first-match lookup, so a
missing key is observable as a lookup returning none, matching the KeyError
behaviour of dict indexing.
-/

namespace DDNS

/-- First-match lookup in an association list; models Python dict access,
where indexing a missing key raises KeyError (here: none) and dict.get
returns None (here: none). -/
def lookup (m : List (String × String)) (k : String) : Option String :=
  (m.find? (fun p => p.1 == k)).map (fun p => p.2)

/-- A DNS record object as returned by the Cloudflare API.  Besides the four
fields the script reads (id, name, type, content) a record carries further
attributes (ttl, proxied, comment) that the script never touches; they are
included so that the frame behaviour of the update call is statable. -/
structure DNSRecord where
  id : String
  name : String
  type : String
  content : String
  ttl : Nat
  proxied : Bool
  comment : String
deriving Repr, DecidableEq

/-- An HTTP response from the ifconfig.co lookup service: its status code and
its body, already decoded to a key-value mapping (the script always calls
response.json()). -/
structure HTTPResponse where
  status : Nat
  body : List (String × String)
deriving Repr, DecidableEq

/-- The exceptions the script can raise: KeyError from dict indexing,
requests.HTTPError from raise_for_status (carrying status and body), and
cloudflare.APIError from the provider SDK. -/
inductive Err where
  | keyError : String → Err
  | httpError : Nat → List (String × String) → Err
  | apiError : String → Err
deriving Repr, DecidableEq

/-- The Cloudflare client object, as constructed by update_dns_ip: an optional
account email, the api_token credential, and the default headers mapping. -/
structure Cloudflare where
  api_email : Option String
  api_token : String
  default_headers : List (String × String)
deriving Repr, DecidableEq

/-- One outbound network call.  getRecord and updateRecord carry the client
they are issued through and their addressing arguments; updateRecord also
carries the full request body the script sends: name, type and content only
(argument order: client, zone_id, dns_record_id, name, type, content). -/
inductive Call where
  | getRecord : Cloudflare → String → String → Call
  | lookupIP : Call
  | updateRecord : Cloudflare → String → String → String → String → String → Call
deriving Repr, DecidableEq

/-- Classification of a call: the provider read, the IP resolution, or the
provider write. -/
inductive CallKind where
  | read : CallKind
  | resolve : CallKind
  | write : CallKind
deriving Repr, DecidableEq

/-- The kind of a call. -/
def Call.kind : Call → CallKind
  | .getRecord _ _ _ => .read
  | .lookupIP => .resolve
  | .updateRecord _ _ _ _ _ _ => .write

/-- Whether a call is the mutating provider write. -/
def isUpdateCall : Call → Bool
  | .updateRecord _ _ _ _ _ _ => true
  | _ => false

instance {ε α : Type} [DecidableEq ε] [DecidableEq α] : DecidableEq (Except ε α) :=
  fun x y =>
    match x, y with
    | .error a, .error b =>
        if h : a = b then .isTrue (congrArg Except.error h)
        else .isFalse (fun hh => h (Except.error.inj hh))
    | .error _, .ok _ => .isFalse (fun hh => Except.noConfusion hh)
    | .ok _, .error _ => .isFalse (fun hh => Except.noConfusion hh)
    | .ok a, .ok b =>
        if h : a = b then .isTrue (congrArg Except.ok h)
        else .isFalse (fun hh => h (Except.ok.inj hh))

/-- The behaviour of the external services during one run: the outcome of the
provider record fetch, the raw response of the IP lookup service, and the
outcome the provider would give to an update call. -/
structure World where
  getResult : Except Err DNSRecord
  lookupResp : HTTPResponse
  updateResult : Except Err DNSRecord
deriving Repr, DecidableEq

/-- get_public_ip, as a function of the lookup-service response it receives:
if raise_for_status is set and the status is one requests classifies as an
error (4xx or 5xx, i.e. in [400, 600)), raise HTTPError carrying status and
body; otherwise return the decoded body. -/
def get_public_ip (raise_for_status : Bool) (response : HTTPResponse) :
    Except Err (List (String × String)) :=
  if raise_for_status = true ∧ 400 ≤ response.status ∧ response.status < 600 then
    .error (.httpError response.status response.body)
  else
    .ok response.body

/-- The Cloudflare client construction at the top of update_dns_ip:
api_email from secrets.get (optional), api_token from dict indexing (KeyError
when absent), and a default Authorization header repeating the bearer
token. -/
def cloudflare_client_of (secrets : List (String × String)) :
    Except Err Cloudflare :=
  match lookup secrets "CLOUDFLARE_API_TOKEN" with
  | none => .error (.keyError "CLOUDFLARE_API_TOKEN")
  | some token =>
      .ok { api_email := lookup secrets "CLOUDFLARE_EMAIL"
            api_token := token
            default_headers := [("Authorization", "Bearer " ++ token)] }

/-- update_dns_ip.  Follows the Python statement order exactly: construct the
client (KeyError on a missing token, before any network call); evaluate the
ZONE_ID and RECORD_ID arguments (KeyError before the read call); issue the
provider read; issue the IP lookup and run get_public_ip on its response;
index the body with "ip" (KeyError when absent); compare with record.content;
when they differ, issue one update call whose arguments are record.name,
record.type, record.id, the resolved ip and secrets ZONE_ID, returning the
provider result; when equal, fall through returning None.  The second
component is the ordered trace of network calls issued. -/
def update_dns_ip (raise_for_status : Bool) (secrets : List (String × String))
    (w : World) : Except Err (Option DNSRecord) × List Call :=
  match cloudflare_client_of secrets with
  | .error e => (.error e, [])
  | .ok cloudflare_client =>
    match lookup secrets "ZONE_ID" with
    | none => (.error (.keyError "ZONE_ID"), [])
    | some zone_id =>
      match lookup secrets "RECORD_ID" with
      | none => (.error (.keyError "RECORD_ID"), [])
      | some dns_record_id =>
        match w.getResult with
        | .error e => (.error e, [Call.getRecord cloudflare_client zone_id dns_record_id])
        | .ok record =>
          match get_public_ip raise_for_status w.lookupResp with
          | .error e =>
              (.error e,
               [Call.getRecord cloudflare_client zone_id dns_record_id, Call.lookupIP])
          | .ok pub_ip_info =>
            match lookup pub_ip_info "ip" with
            | none =>
                (.error (.keyError "ip"),
                 [Call.getRecord cloudflare_client zone_id dns_record_id, Call.lookupIP])
            | some ip =>
              if record.content ≠ ip then
                match w.updateResult with
                | .error e =>
                    (.error e,
                     [Call.getRecord cloudflare_client zone_id dns_record_id, Call.lookupIP,
                      Call.updateRecord cloudflare_client zone_id record.id
                        record.name record.type ip])
                | .ok updated =>
                    (.ok (some updated),
                     [Call.getRecord cloudflare_client zone_id dns_record_id, Call.lookupIP,
                      Call.updateRecord cloudflare_client zone_id record.id
                        record.name record.type ip])
              else
                (.ok none,
                 [Call.getRecord cloudflare_client zone_id dns_record_id, Call.lookupIP])

/-- A well-formed credentials mapping used for concrete runs. -/
def secrets0 : List (String × String) :=
  [("CLOUDFLARE_EMAIL", "user@example.com"),
   ("CLOUDFLARE_API_TOKEN", "tok"),
   ("ZONE_ID", "z1"),
   ("RECORD_ID", "r1")]

/-- The client that secrets0 produces. -/
def client0 : Cloudflare :=
  { api_email := some "user@example.com"
    api_token := "tok"
    default_headers := [("Authorization", "Bearer tok")] }

/-- A fetched record whose content is 1.2.3.4. -/
def record0 : DNSRecord :=
  { id := "r1", name := "host.example.com", type := "A", content := "1.2.3.4"
    ttl := 300, proxied := false, comment := "home" }

/-- A provider reply to an update call. -/
def updated0 : DNSRecord :=
  { id := "r1", name := "host.example.com", type := "A", content := "5.6.7.8"
    ttl := 1, proxied := false, comment := "" }

/-- World where the resolved IP equals the stored content. -/
def worldSync : World :=
  { getResult := .ok record0
    lookupResp := { status := 200, body := [("ip", "1.2.3.4"), ("country", "US")] }
    updateResult := .ok updated0 }

/-- World where the resolved IP differs from the stored content. -/
def worldDiff : World :=
  { getResult := .ok record0
    lookupResp := { status := 200, body := [("ip", "5.6.7.8")] }
    updateResult := .ok updated0 }

/-- The client through which a call is issued, when it is a provider call. -/
def Call.client : Call → Option Cloudflare
  | .getRecord c _ _ => some c
  | .lookupIP => none
  | .updateRecord c _ _ _ _ _ => some c

/-- A credentials mapping with RECORD_ID absent. -/
def secretsMissing : List (String × String) :=
  [("CLOUDFLARE_API_TOKEN", "tok"), ("ZONE_ID", "z1")]

/-- World whose lookup service answers HTTP 500 with an error-shaped body. -/
def worldHTTP500 : World :=
  { getResult := .ok record0
    lookupResp := { status := 500, body := [("error", "boom")] }
    updateResult := .ok updated0 }

/-- World whose lookup service answers HTTP 500 with an empty JSON body. -/
def worldEmptyBody : World :=
  { getResult := .ok record0
    lookupResp := { status := 500, body := [] }
    updateResult := .ok updated0 }

/-- Exhaustive classification of a run of update_dns_ip: the trace is empty
(a KeyError before any network call), or the credentials resolved and the
trace is the read alone, the read then the resolution, or the read, the
resolution and one update call whose arguments come from the fetched record
and the resolved ip; the update case only arises after get_public_ip
succeeded. -/
theorem run_shape (f : Bool) (secrets : List (String × String)) (w : World) :
    (update_dns_ip f secrets w).2 = [] ∨
    ∃ client z rid,
      cloudflare_client_of secrets = Except.ok client ∧
      lookup secrets "ZONE_ID" = some z ∧
      lookup secrets "RECORD_ID" = some rid ∧
      ((update_dns_ip f secrets w).2 = [Call.getRecord client z rid] ∨
       (update_dns_ip f secrets w).2 = [Call.getRecord client z rid, Call.lookupIP] ∨
       (∃ r body ip,
          w.getResult = Except.ok r ∧
          get_public_ip f w.lookupResp = Except.ok body ∧
          lookup body "ip" = some ip ∧
          (update_dns_ip f secrets w).2 =
            [Call.getRecord client z rid, Call.lookupIP,
             Call.updateRecord client z r.id r.name r.type ip])) := by
  cases hc : cloudflare_client_of secrets with
  | error e => left; simp [update_dns_ip, hc]
  | ok client =>
    cases hz : lookup secrets "ZONE_ID" with
    | none => left; simp [update_dns_ip, hc, hz]
    | some z =>
      cases hr : lookup secrets "RECORD_ID" with
      | none => left; simp [update_dns_ip, hc, hz, hr]
      | some rid =>
        right
        refine ⟨client, z, rid, rfl, rfl, rfl, ?_⟩
        cases hg : w.getResult with
        | error e => left; simp [update_dns_ip, hc, hz, hr, hg]
        | ok r =>
          cases hp : get_public_ip f w.lookupResp with
          | error e => right; left; simp [update_dns_ip, hc, hz, hr, hg, hp]
          | ok body =>
            cases hip : lookup body "ip" with
            | none => right; left; simp [update_dns_ip, hc, hz, hr, hg, hp, hip]
            | some ip =>
              by_cases hne : r.content = ip
              · right; left; simp [update_dns_ip, hc, hz, hr, hg, hp, hip, hne]
              · right; right
                refine ⟨r, body, ip, rfl, rfl, hip, ?_⟩
                cases hu : w.updateResult with
                | error e => simp [update_dns_ip, hc, hz, hr, hg, hp, hip, hne, hu]
                | ok upd => simp [update_dns_ip, hc, hz, hr, hg, hp, hip, hne, hu]

/-- C1: for every fetched DNS record and resolved public-IP mapping, if the
record content string is exactly equal to the resolved ip string, then
update_dns_ip issues no update call and returns the no-update sentinel
(None). -/
theorem C1_in_sync_no_update (f : Bool) (secrets : List (String × String))
    (w : World) (client : Cloudflare) (z rid : String) (r : DNSRecord)
    (body : List (String × String))
    (hc : cloudflare_client_of secrets = .ok client)
    (hz : lookup secrets "ZONE_ID" = some z)
    (hrid : lookup secrets "RECORD_ID" = some rid)
    (hg : w.getResult = .ok r)
    (hp : get_public_ip f w.lookupResp = .ok body)
    (hip : lookup body "ip" = some r.content) :
    (update_dns_ip f secrets w).1 = Except.ok none ∧
    CallKind.write ∉ ((update_dns_ip f secrets w).2.map Call.kind) := by
  have h : update_dns_ip f secrets w =
      (.ok none, [Call.getRecord client z rid, Call.lookupIP]) := by
    simp [update_dns_ip, hc, hz, hrid, hg, hp, hip]
  rw [h]
  exact ⟨rfl, by simp [Call.kind]⟩

/-- Witness for C1 at a concrete in-sync run. -/
theorem C1_in_sync_no_update_witness :
    (update_dns_ip true secrets0 worldSync).1 = Except.ok none ∧
    CallKind.write ∉ ((update_dns_ip true secrets0 worldSync).2.map Call.kind) :=
  C1_in_sync_no_update true secrets0 worldSync client0 "z1" "r1" record0
    [("ip", "1.2.3.4"), ("country", "US")]
    (by decide) (by decide) (by decide) (by decide) (by decide) (by decide)

/-- C2: for every fetched DNS record and resolved public-IP mapping with
record content not equal to the resolved ip, update_dns_ip issues the update
call exactly once, with content set to the resolved ip and name and type
taken unchanged from the fetched record, and returns the updated record
object as returned by the provider. -/
theorem C2_mismatch_updates_once (f : Bool) (secrets : List (String × String))
    (w : World) (client : Cloudflare) (z rid ip : String) (r : DNSRecord)
    (body : List (String × String)) (updated : DNSRecord)
    (hc : cloudflare_client_of secrets = .ok client)
    (hz : lookup secrets "ZONE_ID" = some z)
    (hrid : lookup secrets "RECORD_ID" = some rid)
    (hg : w.getResult = .ok r)
    (hp : get_public_ip f w.lookupResp = .ok body)
    (hip : lookup body "ip" = some ip)
    (hne : r.content ≠ ip)
    (hu : w.updateResult = .ok updated) :
    (update_dns_ip f secrets w).1 = Except.ok (some updated) ∧
    ((update_dns_ip f secrets w).2.filter isUpdateCall) =
      [Call.updateRecord client z r.id r.name r.type ip] := by
  have h : update_dns_ip f secrets w =
      (.ok (some updated),
       [Call.getRecord client z rid, Call.lookupIP,
        Call.updateRecord client z r.id r.name r.type ip]) := by
    simp [update_dns_ip, hc, hz, hrid, hg, hp, hip, hne, hu]
  rw [h]
  exact ⟨rfl, by simp [isUpdateCall]⟩

/-- Witness for C2 at a concrete mismatched run. -/
theorem C2_mismatch_updates_once_witness :
    (update_dns_ip true secrets0 worldDiff).1 = Except.ok (some updated0) ∧
    ((update_dns_ip true secrets0 worldDiff).2.filter isUpdateCall) =
      [Call.updateRecord client0 "z1" record0.id record0.name record0.type "5.6.7.8"] :=
  C2_mismatch_updates_once true secrets0 worldDiff client0 "z1" "r1" "5.6.7.8"
    record0 [("ip", "5.6.7.8")] updated0
    (by decide) (by decide) (by decide) (by decide) (by decide) (by decide)
    (by decide) (by decide)

/-- C3: for every credentials mapping missing at least one of the required
keys CLOUDFLARE_API_TOKEN, ZONE_ID or RECORD_ID, update_dns_ip raises a
KeyError for one of those keys and performs zero network calls. -/
theorem C3_missing_credentials (f : Bool) (secrets : List (String × String))
    (w : World)
    (h : lookup secrets "CLOUDFLARE_API_TOKEN" = none ∨
         lookup secrets "ZONE_ID" = none ∨ lookup secrets "RECORD_ID" = none) :
    (∃ k, k ∈ ["CLOUDFLARE_API_TOKEN", "ZONE_ID", "RECORD_ID"] ∧
        (update_dns_ip f secrets w).1 = Except.error (Err.keyError k)) ∧
    (update_dns_ip f secrets w).2 = [] := by
  cases ht : lookup secrets "CLOUDFLARE_API_TOKEN" with
  | none =>
      have hres : update_dns_ip f secrets w =
          (.error (.keyError "CLOUDFLARE_API_TOKEN"), []) := by
        simp [update_dns_ip, cloudflare_client_of, ht]
      exact ⟨⟨"CLOUDFLARE_API_TOKEN", by simp, by rw [hres]⟩, by rw [hres]⟩
  | some token =>
      cases hz : lookup secrets "ZONE_ID" with
      | none =>
          have hres : update_dns_ip f secrets w =
              (.error (.keyError "ZONE_ID"), []) := by
            simp [update_dns_ip, cloudflare_client_of, ht, hz]
          exact ⟨⟨"ZONE_ID", by simp, by rw [hres]⟩, by rw [hres]⟩
      | some z =>
          cases hr : lookup secrets "RECORD_ID" with
          | none =>
              have hres : update_dns_ip f secrets w =
                  (.error (.keyError "RECORD_ID"), []) := by
                simp [update_dns_ip, cloudflare_client_of, ht, hz, hr]
              exact ⟨⟨"RECORD_ID", by simp, by rw [hres]⟩, by rw [hres]⟩
          | some rid =>
              rcases h with h | h | h <;> simp [ht, hz, hr] at h

/-- Witness for C3 at a credentials mapping lacking RECORD_ID. -/
theorem C3_missing_credentials_witness :
    (∃ k, k ∈ ["CLOUDFLARE_API_TOKEN", "ZONE_ID", "RECORD_ID"] ∧
        (update_dns_ip true secretsMissing worldSync).1 =
          Except.error (Err.keyError k)) ∧
    (update_dns_ip true secretsMissing worldSync).2 = [] :=
  C3_missing_credentials true secretsMissing worldSync (Or.inr (Or.inr (by decide)))

/-- C4 counterexample: status 304 is not a 2xx status, yet get_public_ip in
strict mode does not raise on it, because raise_for_status only raises for
statuses in [400, 600); the claim as stated, quantified over every non-2xx
status, is therefore false. -/
theorem C4_counterexample :
    ¬ (200 ≤ 304 ∧ 304 < 300) ∧
    get_public_ip true { status := 304, body := [("ip", "9.9.9.9")] } =
      Except.ok [("ip", "9.9.9.9")] := by
  decide

/-- C4 amended: for every lookup-service response whose status is a 4xx or
5xx error status (400 ≤ status < 600), strict-mode get_public_ip raises an
HTTP error carrying the status code and response body; inside update_dns_ip
this happens after the provider read but before the comparison, so the trace
is exactly the read followed by the resolution, with no update call. -/
theorem C4_strict_http_error (secrets : List (String × String)) (w : World)
    (client : Cloudflare) (z rid : String) (r : DNSRecord)
    (hc : cloudflare_client_of secrets = .ok client)
    (hz : lookup secrets "ZONE_ID" = some z)
    (hrid : lookup secrets "RECORD_ID" = some rid)
    (hg : w.getResult = .ok r)
    (hs4 : 400 ≤ w.lookupResp.status)
    (hs6 : w.lookupResp.status < 600) :
    get_public_ip true w.lookupResp =
      Except.error (Err.httpError w.lookupResp.status w.lookupResp.body) ∧
    (update_dns_ip true secrets w).1 =
      Except.error (Err.httpError w.lookupResp.status w.lookupResp.body) ∧
    (update_dns_ip true secrets w).2.map Call.kind =
      [CallKind.read, CallKind.resolve] := by
  have hp : get_public_ip true w.lookupResp =
      Except.error (Err.httpError w.lookupResp.status w.lookupResp.body) := by
    simp [get_public_ip, hs4, hs6]
  have h : update_dns_ip true secrets w =
      (.error (.httpError w.lookupResp.status w.lookupResp.body),
       [Call.getRecord client z rid, Call.lookupIP]) := by
    simp [update_dns_ip, hc, hz, hrid, hg, hp]
  rw [h] at *
  exact ⟨hp, rfl, by simp [Call.kind]⟩

/-- Witness for C4 amended at a concrete HTTP 500 lookup response. -/
theorem C4_strict_http_error_witness :
    get_public_ip true worldHTTP500.lookupResp =
      Except.error
        (Err.httpError worldHTTP500.lookupResp.status worldHTTP500.lookupResp.body) ∧
    (update_dns_ip true secrets0 worldHTTP500).1 =
      Except.error
        (Err.httpError worldHTTP500.lookupResp.status worldHTTP500.lookupResp.body) ∧
    (update_dns_ip true secrets0 worldHTTP500).2.map Call.kind =
      [CallKind.read, CallKind.resolve] :=
  C4_strict_http_error secrets0 worldHTTP500 client0 "z1" "r1" record0
    (by decide) (by decide) (by decide) (by decide) (by decide) (by decide)

/-- C5: for every lookup-service response, when raise_for_status is false
get_public_ip suppresses HTTP error statuses and returns the decoded body as
a key-value mapping regardless of the status, including when the body is
empty or error-shaped. -/
theorem C5_nonstrict_returns_body (response : HTTPResponse) :
    get_public_ip false response = Except.ok response.body := by
  simp [get_public_ip]

/-- C6: in every invocation of update_dns_ip the trace of network calls is a
read-first sequence in which the provider read strictly precedes the IP
resolution and the write comes last if at all, at most one mutating call is
issued, and a failing IP resolution means no write appears in the trace. -/
theorem C6_read_before_resolve_at_most_one_write (f : Bool)
    (secrets : List (String × String)) (w : World) :
    ((update_dns_ip f secrets w).2.map Call.kind) ∈
      ([[], [CallKind.read], [CallKind.read, CallKind.resolve],
        [CallKind.read, CallKind.resolve, CallKind.write]] :
        List (List CallKind)) ∧
    ((update_dns_ip f secrets w).2.filter isUpdateCall).length ≤ 1 ∧
    (∀ e, get_public_ip f w.lookupResp = Except.error e →
      CallKind.write ∉ ((update_dns_ip f secrets w).2.map Call.kind)) := by
  rcases run_shape f secrets w with h |
    ⟨client, z, rid, hc, hz, hr, h | h | ⟨r, body, ip, hg, hp, hip, h⟩⟩
  · rw [h]
    exact ⟨by simp, by simp, fun e _ => by simp⟩
  · rw [h]
    exact ⟨by simp [Call.kind], by simp [isUpdateCall], fun e _ => by simp [Call.kind]⟩
  · rw [h]
    exact ⟨by simp [Call.kind], by simp [isUpdateCall], fun e _ => by simp [Call.kind]⟩
  · rw [h]
    refine ⟨by simp [Call.kind], by simp [isUpdateCall], ?_⟩
    intro e he
    rw [hp] at he
    exact absurd he (by simp)

/-- Witness for C6 at a concrete run that issues an update. -/
theorem C6_read_before_resolve_at_most_one_write_witness :
    ((update_dns_ip true secrets0 worldDiff).2.map Call.kind) ∈
      ([[], [CallKind.read], [CallKind.read, CallKind.resolve],
        [CallKind.read, CallKind.resolve, CallKind.write]] :
        List (List CallKind)) ∧
    ((update_dns_ip true secrets0 worldDiff).2.filter isUpdateCall).length ≤ 1 ∧
    (∀ e, get_public_ip true worldDiff.lookupResp = Except.error e →
      CallKind.write ∉ ((update_dns_ip true secrets0 worldDiff).2.map Call.kind)) :=
  C6_read_before_resolve_at_most_one_write true secrets0 worldDiff

/-- C7: for every lookup response that decodes to a mapping lacking the ip
key, update_dns_ip fails with a KeyError for "ip" at the comparison step and
no update call occurs. -/
theorem C7_missing_ip_key (f : Bool) (secrets : List (String × String))
    (w : World) (client : Cloudflare) (z rid : String) (r : DNSRecord)
    (body : List (String × String))
    (hc : cloudflare_client_of secrets = .ok client)
    (hz : lookup secrets "ZONE_ID" = some z)
    (hrid : lookup secrets "RECORD_ID" = some rid)
    (hg : w.getResult = .ok r)
    (hp : get_public_ip f w.lookupResp = .ok body)
    (hip : lookup body "ip" = none) :
    (update_dns_ip f secrets w).1 = Except.error (Err.keyError "ip") ∧
    CallKind.write ∉ ((update_dns_ip f secrets w).2.map Call.kind) := by
  have h : update_dns_ip f secrets w =
      (.error (.keyError "ip"), [Call.getRecord client z rid, Call.lookupIP]) := by
    simp [update_dns_ip, hc, hz, hrid, hg, hp, hip]
  rw [h]
  exact ⟨rfl, by simp [Call.kind]⟩

/-- Witness for C7: non-strict mode, HTTP 500 with an empty JSON body. -/
theorem C7_missing_ip_key_witness :
    (update_dns_ip false secrets0 worldEmptyBody).1 =
      Except.error (Err.keyError "ip") ∧
    CallKind.write ∉
      ((update_dns_ip false secrets0 worldEmptyBody).2.map Call.kind) :=
  C7_missing_ip_key false secrets0 worldEmptyBody client0 "z1" "r1" record0 []
    (by decide) (by decide) (by decide) (by decide) (by decide) (by decide)

/-- A fetched record whose id differs from the configured RECORD_ID, as a
misbehaving or inconsistent provider could return. -/
def recordOther : DNSRecord :=
  { id := "other", name := "host.example.com", type := "A", content := "1.2.3.4"
    ttl := 300, proxied := false, comment := "" }

/-- World in which the provider returns recordOther for the read and the ip
has changed, so an update is issued. -/
def worldC8 : World :=
  { getResult := .ok recordOther
    lookupResp := { status := 200, body := [("ip", "5.6.7.8")] }
    updateResult := .ok updated0 }

/-- C8 counterexample: the script passes record.id, not the configured
RECORD_ID, as dns_record_id of the update call; when the provider returns a
record whose id field is "other" while RECORD_ID is "r1", the update is
addressed to "other", so the claim that the record id passed to the update
equals the configured RECORD_ID is false. -/
theorem C8_counterexample :
    lookup secrets0 "RECORD_ID" = some "r1" ∧
    (update_dns_ip true secrets0 worldC8).2.filter isUpdateCall =
      [Call.updateRecord client0 "z1" "other" "host.example.com" "A" "5.6.7.8"] ∧
    "other" ≠ "r1" := by
  decide

/-- C8 amended: when update_dns_ip issues an update, the zone id passed to
the update equals the configured ZONE_ID, and the record id passed to the
update equals the id field of the fetched record, which coincides with the
configured RECORD_ID only when the provider echoes the requested id. -/
theorem C8_update_addressing (f : Bool) (secrets : List (String × String))
    (w : World) (client : Cloudflare) (z rid ip : String) (r : DNSRecord)
    (body : List (String × String))
    (hc : cloudflare_client_of secrets = .ok client)
    (hz : lookup secrets "ZONE_ID" = some z)
    (hrid : lookup secrets "RECORD_ID" = some rid)
    (hg : w.getResult = .ok r)
    (hp : get_public_ip f w.lookupResp = .ok body)
    (hip : lookup body "ip" = some ip)
    (hne : r.content ≠ ip) :
    (update_dns_ip f secrets w).2.filter isUpdateCall =
      [Call.updateRecord client z r.id r.name r.type ip] := by
  have h : (update_dns_ip f secrets w).2 =
      [Call.getRecord client z rid, Call.lookupIP,
       Call.updateRecord client z r.id r.name r.type ip] := by
    cases hu : w.updateResult with
    | error e => simp [update_dns_ip, hc, hz, hrid, hg, hp, hip, hne, hu]
    | ok upd => simp [update_dns_ip, hc, hz, hrid, hg, hp, hip, hne, hu]
  rw [h]
  simp [isUpdateCall]

/-- Witness for C8 amended at a concrete mismatched run. -/
theorem C8_update_addressing_witness :
    (update_dns_ip true secrets0 worldDiff).2.filter isUpdateCall =
      [Call.updateRecord client0 "z1" record0.id record0.name record0.type
        "5.6.7.8"] :=
  C8_update_addressing true secrets0 worldDiff client0 "z1" "r1" "5.6.7.8"
    record0 [("ip", "5.6.7.8")]
    (by decide) (by decide) (by decide) (by decide) (by decide) (by decide)
    (by decide)

/-- C9: for every credentials mapping containing CLOUDFLARE_API_TOKEN, the
client constructed by update_dns_ip carries the token both as its api_token
credential and inside its default Authorization header, both with the
identical token value; moreover every provider call in the trace is issued
through such a client. -/
theorem C9_dual_auth (f : Bool) (secrets : List (String × String)) (w : World)
    (token : String)
    (htok : lookup secrets "CLOUDFLARE_API_TOKEN" = some token) :
    cloudflare_client_of secrets =
      Except.ok { api_email := lookup secrets "CLOUDFLARE_EMAIL"
                  api_token := token
                  default_headers := [("Authorization", "Bearer " ++ token)] } ∧
    (∀ c ∈ (update_dns_ip f secrets w).2, ∀ cl, Call.client c = some cl →
      cl.api_token = token ∧
      lookup cl.default_headers "Authorization" = some ("Bearer " ++ token)) := by
  have hcl : cloudflare_client_of secrets =
      Except.ok { api_email := lookup secrets "CLOUDFLARE_EMAIL"
                  api_token := token
                  default_headers := [("Authorization", "Bearer " ++ token)] } := by
    simp [cloudflare_client_of, htok]
  refine ⟨hcl, ?_⟩
  have hprops : ∀ cl : Cloudflare,
      cloudflare_client_of secrets = Except.ok cl →
      cl.api_token = token ∧
      lookup cl.default_headers "Authorization" = some ("Bearer " ++ token) := by
    intro cl hcl2
    rw [hcl] at hcl2
    cases Except.ok.inj hcl2
    exact ⟨rfl, by simp [lookup]⟩
  rcases run_shape f secrets w with h |
    ⟨client, z, rid, hc, hz, hr, h | h | ⟨r, body, ip, hg, hp, hip, h⟩⟩
  · rw [h]
    intro c hmem
    simp at hmem
  · rw [h]
    intro c hmem cl hc2
    rw [List.mem_singleton] at hmem
    subst hmem
    simp [Call.client] at hc2
    subst hc2
    exact hprops client hc
  · rw [h]
    intro c hmem cl hc2
    rcases List.mem_cons.mp hmem with rfl | hmem2
    · simp [Call.client] at hc2
      subst hc2
      exact hprops client hc
    · rw [List.mem_singleton] at hmem2
      subst hmem2
      simp [Call.client] at hc2
  · rw [h]
    intro c hmem cl hc2
    rcases List.mem_cons.mp hmem with rfl | hmem2
    · simp [Call.client] at hc2
      subst hc2
      exact hprops client hc
    · rcases List.mem_cons.mp hmem2 with rfl | hmem3
      · simp [Call.client] at hc2
      · rw [List.mem_singleton] at hmem3
        subst hmem3
        simp [Call.client] at hc2
        subst hc2
        exact hprops client hc

/-- Witness for C9: the client built from secrets0 carries the token "tok"
both as api_token and in its Authorization header. -/
theorem C9_dual_auth_witness :
    client0.api_token = "tok" ∧
    lookup client0.default_headers "Authorization" = some ("Bearer " ++ "tok") :=
  (C9_dual_auth true secrets0 worldSync "tok" (by decide)).2
    (Call.getRecord client0 "z1" "r1") (by decide) client0 rfl

/-- C10: the update request forwards only the name, type and content fields
(plus the addressing identifiers); every other attribute of the fetched
record plays no role: replacing the ttl, proxied and comment fields of the
fetched record changes neither the outcome nor the trace of any run. -/
theorem C10_update_body_frame (f : Bool) (secrets : List (String × String))
    (w : World) (r : DNSRecord) (t : Nat) (p : Bool) (cm : String) :
    update_dns_ip f secrets { w with getResult := .ok r } =
    update_dns_ip f secrets
      { w with getResult := .ok { r with ttl := t, proxied := p, comment := cm } } := by
  cases hc : cloudflare_client_of secrets with
  | error e => simp [update_dns_ip, hc]
  | ok client =>
    cases hz : lookup secrets "ZONE_ID" with
    | none => simp [update_dns_ip, hc, hz]
    | some z =>
      cases hr : lookup secrets "RECORD_ID" with
      | none => simp [update_dns_ip, hc, hz, hr]
      | some rid =>
        cases hp : get_public_ip f w.lookupResp with
        | error e => simp [update_dns_ip, hc, hz, hr, hp]
        | ok body =>
          cases hip : lookup body "ip" with
          | none => simp [update_dns_ip, hc, hz, hr, hp, hip]
          | some ip =>
            by_cases hne : r.content = ip
            · simp [update_dns_ip, hc, hz, hr, hp, hip, hne]
            · cases hu : w.updateResult with
              | error e => simp [update_dns_ip, hc, hz, hr, hp, hip, hne, hu]
              | ok upd => simp [update_dns_ip, hc, hz, hr, hp, hip, hne, hu]

end DDNS
